import Mathlib

/-!
Shallow embedding of `webrender_api/src/image.rs`: image identity keys,
pixel-format and descriptor metadata, the `ImageData` storage variant with
its texture-cache classification, the blob rasterization result type, and
the output-image handler protocol, together with theorems checking the
specification's claims about them.

Rust `u32` values are modelled as `Nat`; arithmetic that can wrap in the
source (`width * bytes_per_pixel` in `compute_stride`) is taken modulo
`2 ^ 32`. `Arc<Vec<u8>>` buffers are modelled transparently as the byte
list they hold.
-/

/-- Size of the `u32` value space; wrapping `u32` arithmetic is taken modulo this. -/
def u32Size : Nat := 2 ^ 32

/-- `IdNamespace(pub u32)` — declared outside this file, consumed by `ImageKey`. -/
structure IdNamespace where
  val : Nat
  deriving DecidableEq, Repr

/-- `pub struct ImageKey(pub IdNamespace, pub u32)` — the two positional
fields are named `ns` and `id` here. -/
structure ImageKey where
  ns : IdNamespace
  id : Nat
  deriving DecidableEq, Repr

/-- `ImageKey::new(namespace, key)`. -/
def ImageKey.new (ns : IdNamespace) (key : Nat) : ImageKey :=
  { ns := ns, id := key }

/-- `ImageKey::dummy()` — `ImageKey(IdNamespace(0), 0)`. -/
def ImageKey.dummy : ImageKey :=
  { ns := { val := 0 }, id := 0 }

/-- `pub struct ExternalImageId(pub u64)`. -/
structure ExternalImageId where
  val : Nat
  deriving DecidableEq, Repr

/-- `pub enum ExternalImageType` — four direct GPU texture handle kinds plus
`ExternalBuffer`. -/
inductive ExternalImageType where
  | Texture2DHandle
  | Texture2DArrayHandle
  | TextureRectHandle
  | TextureExternalHandle
  | ExternalBuffer
  deriving DecidableEq, Repr

/-- `pub struct ExternalImageData`. -/
structure ExternalImageData where
  id : ExternalImageId
  channel_index : Nat
  image_type : ExternalImageType
  deriving DecidableEq, Repr

/-- `pub enum ImageFormat { R8 = 1, BGRA8 = 3, RGBAF32 = 4, RG8 = 5 }`. -/
inductive ImageFormat where
  | R8
  | BGRA8
  | RGBAF32
  | RG8
  deriving DecidableEq, Repr

/-- `ImageFormat::bytes_per_pixel`. -/
def ImageFormat.bytes_per_pixel : ImageFormat → Nat
  | ImageFormat.R8 => 1
  | ImageFormat.BGRA8 => 4
  | ImageFormat.RGBAF32 => 16
  | ImageFormat.RG8 => 2

/-- `pub struct ImageDescriptor`. -/
structure ImageDescriptor where
  format : ImageFormat
  width : Nat
  height : Nat
  stride : Option Nat
  offset : Nat
  is_opaque : Bool
  deriving DecidableEq, Repr

/-- `ImageDescriptor::new(width, height, format, is_opaque)`. -/
def ImageDescriptor.new (width height : Nat) (format : ImageFormat)
    ( is_opaque : Bool) : ImageDescriptor :=
  { width := width, height := height, format := format,
    stride := none, offset := 0, is_opaque := is_opaque }

/-- `ImageDescriptor::compute_stride` — `self.stride.unwrap_or(self.width *
self.format.bytes_per_pixel())`; the `u32` product wraps modulo `2 ^ 32`. -/
def ImageDescriptor.compute_stride (d : ImageDescriptor) : Nat :=
  d.stride.getD (d.width * d.format.bytes_per_pixel % u32Size)

/-- `pub enum ImageData { Raw(Arc<Vec<u8>>), Blob(BlobImageData),
External(ExternalImageData) }`; byte buffers are modelled as `List Nat`. -/
inductive ImageData where
  | Raw (bytes : List Nat)
  | Blob (commands : List Nat)
  | External (ext : ExternalImageData)
  deriving DecidableEq, Repr

/-- `ImageData::new(bytes)` — wraps a fresh buffer in `Arc` and builds `Raw`. -/
def ImageData.new (bytes : List Nat) : ImageData :=
  ImageData.Raw bytes

/-- `ImageData::new_shared(bytes)` — builds `Raw` from an already shared
`Arc` buffer; the `Arc` is modelled transparently as its contents. -/
def ImageData.new_shared (bytes : List Nat) : ImageData :=
  ImageData.Raw bytes

/-- `ImageData::new_blob_image(commands)`. -/
def ImageData.new_blob_image (commands : List Nat) : ImageData :=
  ImageData.Blob commands

/-- `ImageData::is_blob`. -/
def ImageData.is_blob : ImageData → Bool
  | ImageData.Blob _ => true
  | _ => false

/-- `ImageData::uses_texture_cache`. -/
def ImageData.uses_texture_cache : ImageData → Bool
  | ImageData.External ext_data =>
    match ext_data.image_type with
    | ExternalImageType.Texture2DHandle => false
    | ExternalImageType.Texture2DArrayHandle => false
    | ExternalImageType.TextureRectHandle => false
    | ExternalImageType.TextureExternalHandle => false
    | ExternalImageType.ExternalBuffer => true
  | ImageData.Blob _ => true
  | ImageData.Raw _ => true

/-- Reading the bytes back out of a `Raw` image (dereferencing the `Arc`). -/
def ImageData.raw_bytes : ImageData → Option (List Nat)
  | ImageData.Raw bytes => some bytes
  | _ => none

/-- `pub struct RasterizedBlobImage`. -/
structure RasterizedBlobImage where
  width : Nat
  height : Nat
  data : List Nat

/-- `pub enum BlobImageError { Oom, InvalidKey, InvalidData, Other(String) }`. -/
inductive BlobImageError where
  | Oom
  | InvalidKey
  | InvalidData
  | Other (msg : String)
  deriving DecidableEq, Repr

/-- `pub type BlobImageResult = Result<RasterizedBlobImage, BlobImageError>` —
the return type of `BlobImageRenderer::resolve`. -/
abbrev BlobImageResult := Except BlobImageError RasterizedBlobImage

/-- One observable call against an `OutputImageHandler`, for a pipeline id
modelled as a `Nat`. -/
inductive OutputCall where
  | lock (pipeline_id : Nat)
  | unlock (pipeline_id : Nat)
  deriving DecidableEq, Repr

/-- Modelled from the spec: the renderer side of the `OutputImageHandler`
protocol is missing from `src/` (the file only declares the trait), so the
per-frame call sequence the renderer issues against the handler for one
pipeline is taken from the spec's words: `lock(pipeline_id)` is called; when
it returns `Some((texture handle, size))` and the copy commands are issued,
`unlock(pipeline_id)` follows; when it returns `None` the renderer skips the
copy and never calls `unlock` for that pipeline that frame. -/
def outputHandlerFrameCalls (pipeline_id : Nat) (lockResult : Option (Nat × Nat)) :
    List OutputCall :=
  match lockResult with
  | some _ => [OutputCall.lock pipeline_id, OutputCall.unlock pipeline_id]
  | none => [OutputCall.lock pipeline_id]

/-- Claim C1: `uses_texture_cache` returns true on every `Raw`, every `Blob`
and every `External` value of type `ExternalBuffer`, and returns false
exactly on the `External` values whose type is one of the four direct
GPU-handle kinds. -/
theorem uses_texture_cache_classification (d : ImageData) :
    (d.uses_texture_cache = true ↔
      (∃ b, d = ImageData.Raw b) ∨ (∃ c, d = ImageData.Blob c) ∨
      (∃ e, d = ImageData.External e ∧
        e.image_type = ExternalImageType.ExternalBuffer)) ∧
    (d.uses_texture_cache = false ↔
      ∃ e, d = ImageData.External e ∧
        (e.image_type = ExternalImageType.Texture2DHandle ∨
         e.image_type = ExternalImageType.Texture2DArrayHandle ∨
         e.image_type = ExternalImageType.TextureRectHandle ∨
         e.image_type = ExternalImageType.TextureExternalHandle)) := by
  cases d with
  | Raw b => simp [ImageData.uses_texture_cache]
  | Blob c => simp [ImageData.uses_texture_cache]
  | External e =>
    obtain ⟨eid, ch, ty⟩ := e
    cases ty <;> simp [ImageData.uses_texture_cache]

/-- Claim C2 counterexample: at width `2^31` and format `RG8` (2 bytes per
pixel) the derived stride wraps around the `u32` value space, so a freshly
constructed descriptor's `compute_stride` is not the exact product
`width * bytes_per_pixel`. -/
theorem compute_stride_overflow_counterexample :
    (ImageDescriptor.new 2147483648 1 ImageFormat.RG8 false).compute_stride ≠
      2147483648 * ImageFormat.RG8.bytes_per_pixel := by
  decide

/-- Claim C2 (amended): a descriptor built by `ImageDescriptor::new` has no
explicit stride, and its `compute_stride` is `width * bytes_per_pixel`
reduced modulo `2^32` (Rust `u32` arithmetic) — hence exactly the product
whenever that product fits in a `u32`; a descriptor with an explicit stride
computes exactly that stride. -/
theorem compute_stride_spec (w h : Nat) (F : ImageFormat) (o : Bool)
    (d : ImageDescriptor) (s : Nat) :
    (ImageDescriptor.new w h F o).stride = none ∧
    (ImageDescriptor.new w h F o).compute_stride =
      w * F.bytes_per_pixel % u32Size ∧
    (w * F.bytes_per_pixel < u32Size →
      (ImageDescriptor.new w h F o).compute_stride = w * F.bytes_per_pixel) ∧
    (d.stride = some s → d.compute_stride = s) := by
  refine ⟨rfl, rfl, fun hlt => ?_, fun hs => ?_⟩
  · show w * F.bytes_per_pixel % u32Size = w * F.bytes_per_pixel
    exact Nat.mod_eq_of_lt hlt
  · simp [ImageDescriptor.compute_stride, hs]

/-- Claim C2 witness: the amended claim evaluated at concrete descriptors,
one fresh (10 × 5, `BGRA8`) and one carrying an explicit stride of 7. -/
theorem compute_stride_spec_witness :
    (ImageDescriptor.new 10 5 ImageFormat.BGRA8 true).compute_stride =
      10 * ImageFormat.BGRA8.bytes_per_pixel ∧
    (ImageDescriptor.mk ImageFormat.R8 3 3 (some 7) 0 false).compute_stride = 7 :=
  ⟨(compute_stride_spec 10 5 ImageFormat.BGRA8 true
      (ImageDescriptor.mk ImageFormat.R8 3 3 (some 7) 0 false) 7).2.2.1
      (by decide),
   (compute_stride_spec 10 5 ImageFormat.BGRA8 true
      (ImageDescriptor.mk ImageFormat.R8 3 3 (some 7) 0 false) 7).2.2.2 rfl⟩

/-- Claim C3: `bytes_per_pixel` is a total function on the closed four-value
format enumeration, mapping `R8 ↦ 1`, `BGRA8 ↦ 4`, `RGBAF32 ↦ 16`,
`RG8 ↦ 2`; every result lies in `{1, 2, 4, 16}` and no format maps to 0. -/
theorem bytes_per_pixel_total :
    ImageFormat.R8.bytes_per_pixel = 1 ∧
    ImageFormat.BGRA8.bytes_per_pixel = 4 ∧
    ImageFormat.RGBAF32.bytes_per_pixel = 16 ∧
    ImageFormat.RG8.bytes_per_pixel = 2 ∧
    ∀ F : ImageFormat,
      (F.bytes_per_pixel = 1 ∨ F.bytes_per_pixel = 2 ∨
        F.bytes_per_pixel = 4 ∨ F.bytes_per_pixel = 16) ∧
      F.bytes_per_pixel ≠ 0 := by
  refine ⟨rfl, rfl, rfl, rfl, fun F => ?_⟩
  cases F <;> simp [ImageFormat.bytes_per_pixel]

/-- Claim C4: `ImageKey` equality is structural over `(namespace, id)`,
`dummy()` is the key `(namespace 0, id 0)`, and `new` with a non-zero
namespace or a non-zero id never equals `dummy()`. -/
theorem image_key_dummy_spec (a b : ImageKey) (n i : Nat) :
    (a = b ↔ a.ns = b.ns ∧ a.id = b.id) ∧
    ImageKey.dummy = ImageKey.new { val := 0 } 0 ∧
    ((n ≠ 0 ∨ i ≠ 0) → ImageKey.new { val := n } i ≠ ImageKey.dummy) := by
  refine ⟨?_, rfl, fun h hEq => ?_⟩
  · cases a; cases b
    simp [ImageKey.mk.injEq]
  · have hn : n = 0 ∧ i = 0 := by
      have := congrArg ImageKey.ns hEq
      have h2 := congrArg ImageKey.id hEq
      simp [ImageKey.new, ImageKey.dummy] at this h2
      exact ⟨this, h2⟩
    rcases h with h | h <;> [exact h hn.1; exact h hn.2]

/-- Claim C4 witness: `new` with namespace 1 and id 0 differs from
`dummy()`. -/
theorem image_key_dummy_spec_witness :
    ImageKey.new { val := 1 } 0 ≠ ImageKey.dummy :=
  (image_key_dummy_spec ImageKey.dummy ImageKey.dummy 1 0).2.2
    (Or.inl (by decide))

/-- Claim C5: reading the bytes back out of `ImageData::new(b)` yields `b`;
`new_shared` applied twice to the same shared buffer yields two values that
are identical and hold the same underlying bytes (the shared `Arc` is
modelled transparently as its contents); and `new` and `new_shared` over the
same bytes produce identical `Raw` values. -/
theorem raw_image_round_trip (b a : List Nat) :
    (ImageData.new b).raw_bytes = some b ∧
    ImageData.new_shared a = ImageData.new_shared a ∧
    (ImageData.new_shared a).raw_bytes = some a ∧
    ImageData.new b = ImageData.new_shared b :=
  ⟨rfl, rfl, rfl, rfl⟩

/-- Claim C6: `is_blob` is true exactly on the `Blob` variant, and false on
every `Raw` and every `External` value. -/
theorem is_blob_iff (d : ImageData) :
    (d.is_blob = true ↔ ∃ c, d = ImageData.Blob c) ∧
    (∀ b, (ImageData.Raw b).is_blob = false) ∧
    (∀ e, (ImageData.External e).is_blob = false) := by
  refine ⟨?_, fun b => rfl, fun e => rfl⟩
  cases d <;> simp [ImageData.is_blob]

/-- Claim C7: a `resolve` outcome is an explicit result value — every
`BlobImageResult` is either `Ok` with a `RasterizedBlobImage` or an error
that is exactly one of `Oom`, `InvalidKey`, `InvalidData`, `Other(msg)`;
there is no other failure channel. -/
theorem resolve_result_exhaustive (r : BlobImageResult) :
    (∃ img : RasterizedBlobImage, r = Except.ok img) ∨
    r = Except.error BlobImageError.Oom ∨
    r = Except.error BlobImageError.InvalidKey ∨
    r = Except.error BlobImageError.InvalidData ∨
    (∃ msg, r = Except.error (BlobImageError.Other msg)) := by
  cases r with
  | ok img => exact Or.inl ⟨img, rfl⟩
  | error e =>
    cases e with
    | Oom => exact Or.inr (Or.inl rfl)
    | InvalidKey => exact Or.inr (Or.inr (Or.inl rfl))
    | InvalidData => exact Or.inr (Or.inr (Or.inr (Or.inl rfl)))
    | Other msg => exact Or.inr (Or.inr (Or.inr (Or.inr ⟨msg, rfl⟩)))

/-- Claim C8: in a frame's call sequence against an `OutputImageHandler`,
`unlock(pipeline_id)` occurs if and only if the frame's `lock(pipeline_id)`
returned `Some`; a `lock` that returned `None` is never followed by an
`unlock` for that pipeline in that frame, and `lock` always occurs. -/
theorem output_unlock_iff_lock_some (p : Nat) (r : Option (Nat × Nat)) :
    (OutputCall.unlock p ∈ outputHandlerFrameCalls p r ↔ r.isSome = true) ∧
    OutputCall.lock p ∈ outputHandlerFrameCalls p r := by
  cases r <;> simp [outputHandlerFrameCalls]

/-- Claim C9: `new_blob_image` yields a value that `is_blob` accepts and
that uses the texture cache; `new` and `new_shared` yield values that
`is_blob` rejects. -/
theorem blob_image_constructors (c b a : List Nat) :
    (ImageData.new_blob_image c).is_blob = true ∧
    (ImageData.new_blob_image c).uses_texture_cache = true ∧
    (ImageData.new b).is_blob = false ∧
    (ImageData.new_shared a).is_blob = false :=
  ⟨rfl, rfl, rfl, rfl⟩

/-- Claim C10: `ImageDescriptor::new(w, h, F, o)` sets exactly `width = w`,
`height = h`, `format = F`, `is_opaque = o`, no explicit stride, and a zero
byte offset. -/
theorem image_descriptor_new_fields (w h : Nat) (F : ImageFormat) (o : Bool) :
    (ImageDescriptor.new w h F o).width = w ∧
    (ImageDescriptor.new w h F o).height = h ∧
    (ImageDescriptor.new w h F o).format = F ∧
    ImageDescriptor.is_opaque (ImageDescriptor.new w h F o) = o ∧
    (ImageDescriptor.new w h F o).stride = none ∧
    (ImageDescriptor.new w h F o).offset = 0 :=
  ⟨rfl, rfl, rfl, rfl, rfl, rfl⟩
